import Mathlib

/-!
Verification of the Monochrome image generator (App.tsx and
services/geminiService.ts) against its specification.

The TypeScript source is shallowly embedded: JavaScript strings become
Lean `String`s (manipulated through their `List Char` data where this
eases proofs), thrown JavaScript values become an explicit error type,
the asynchronous provider call becomes a function parameter, and the
React component state becomes an explicit record with a step function
over user/completion events.
-/

namespace Mono

/-! ### JavaScript string primitives used by the source -/

/-- JS `String.prototype.trim`: drop leading and trailing whitespace. -/
def jsTrim (s : String) : String :=
  String.mk (((s.data.dropWhile Char.isWhitespace).reverse.dropWhile
      Char.isWhitespace).reverse)

/-- JS `String.prototype.toLowerCase` (ASCII-relevant part). -/
def jsToLower (s : String) : String :=
  String.mk (s.data.map Char.toLower)

/-- Characters the regex `[^a-z0-9_]` does NOT match, i.e. the kept ones. -/
def isFilenameChar (c : Char) : Bool :=
  ('a' ≤ c && c ≤ 'z') || ('0' ≤ c && c ≤ '9') || c = '_'

/-- JS `replace(/[^a-z0-9_]+/g, '_')`: each maximal run of disallowed
characters becomes a single underscore.  `prevReplaced` records whether the
previous character belonged to a run already replaced. -/
def collapseRuns (prevReplaced : Bool) : List Char → List Char
  | [] => []
  | c :: rest =>
    if isFilenameChar c then c :: collapseRuns false rest
    else if prevReplaced then collapseRuns true rest
    else '_' :: collapseRuns true rest

/-! ### geminiService.ts -/

/-- The fixed style suffix appended to every prompt (source line 12). -/
def styleSuffix : String :=
  ", promptu sadece arkaplan siyah olacak şekilde sadece beyaz renk kullanarak çizecek"

/-- `part.inlineData` of a response part. -/
structure InlineData where
  data : String
deriving DecidableEq, Repr

/-- One content part of the provider response. -/
structure Part where
  text : Option String := none
  inlineData : Option InlineData := none
deriving DecidableEq, Repr

/-- `candidate.content`. -/
structure Content where
  parts : Option (List Part)
deriving DecidableEq, Repr

/-- One entry of `response.candidates`. -/
structure Candidate where
  content : Option Content
deriving DecidableEq, Repr

/-- The provider response object. -/
structure GenResponse where
  candidates : Option (List Candidate)
deriving DecidableEq, Repr

/-- `response.candidates?.[0]?.content?.parts || []` (source line 29). -/
def responseParts (r : GenResponse) : List Part :=
  ((((r.candidates.bind List.head?).bind Candidate.content).bind
    Content.parts).getD [])

/-- A thrown JavaScript value: either an `Error` carrying a message, or any
non-`Error` value. -/
inductive JsError where
  | error (message : String)
  | nonError
deriving DecidableEq, Repr

/-- The request dispatched by `ai.models.generateContent` (source lines 15-27):
model name and the list of text parts (the config requests IMAGE modality). -/
structure GenRequest where
  model : String
  textParts : List String
deriving DecidableEq, Repr

/-- Construction of the dispatched request: the full prompt is the user
prompt with the style suffix appended (source lines 12 and 15-27). -/
def mkRequest (prompt : String) : GenRequest :=
  { model := "gemini-2.5-flash-image", textParts := [prompt ++ styleSuffix] }

/-- Message of the error thrown at source line 35. -/
def noImageMsg : String := "No image data found in the API response."

/-- Message of the startup error thrown at source line 5 of the service. -/
def configErrorMsg : String := "API_KEY environment variable is not set."

/-- The `for` loop of source lines 29-33: return the `inlineData.data` of the
first part whose `inlineData` is present. -/
def firstInlineData : List Part → Option String
  | [] => none
  | p :: rest =>
    match p.inlineData with
    | some d => some d.data
    | none => firstInlineData rest

/-- The body of the `try` block (source lines 15-35): dispatch the request,
scan the parts, and throw `noImageMsg` when no part carries inline data.
The provider itself may fail, modelled by `provider` returning an error. -/
def tryBody (prompt : String) (provider : GenRequest → Except JsError GenResponse) :
    Except JsError String :=
  match provider (mkRequest prompt) with
  | .error e => .error e
  | .ok response =>
    match firstInlineData (responseParts response) with
    | some d => .ok d
    | none => .error (.error noImageMsg)

/-- The `catch` block (source lines 37-43): an `Error` is rethrown with the
`Failed to generate image: ` prefix, anything else becomes the generic
unknown-error `Error`. -/
def catchWrap : JsError → JsError
  | .error msg => .error ("Failed to generate image: " ++ msg)
  | .nonError => .error "An unknown error occurred while generating the image."

/-- `generateMonochromeImage` (source lines 10-44): run the try body and wrap
any failure with the catch block.  Note that the `noImageMsg` throw at line 35
sits inside the `try`, so it too passes through `catchWrap`. -/
def generateMonochromeImage (prompt : String)
    (provider : GenRequest → Except JsError GenResponse) : Except JsError String :=
  match tryBody prompt provider with
  | .ok d => .ok d
  | .error e => .error (catchWrap e)

/-- Startup check (service source lines 4-8): `!process.env.API_KEY` is truthy
when the variable is absent or empty. -/
def apiKeyPresent (env : Option String) : Bool :=
  match env with
  | none => false
  | some s => s ≠ ""

/-- Module initialization: throws `configErrorMsg` when the key is missing,
otherwise constructs the client. -/
def startupCheck (env : Option String) : Except JsError Unit :=
  if apiKeyPresent env then .ok () else .error (.error configErrorMsg)

/-! ### App.tsx: controller state -/

/-- The React component state (source lines 13-16). -/
structure AppState where
  prompt : String
  generatedImage : Option String
  isLoading : Bool
  error : Option String
deriving DecidableEq, Repr

/-- Initial state (source lines 13-16). -/
def initialState : AppState :=
  { prompt := "", generatedImage := none, isLoading := false, error := none }

/-- `isGenerateDisabled = !prompt.trim() || isLoading` (source line 51). -/
def isGenerateDisabled (a : AppState) : Bool :=
  jsTrim a.prompt = "" || a.isLoading

/-- The synchronous prefix of `handleSubmit` (source lines 18-29), up to the
`await`.  Returns the new state together with the prompt passed to
`generateMonochromeImage` when a call is issued (`none` when no call is
issued). -/
def handleSubmitStart (a : AppState) : AppState × Option String :=
  if jsTrim a.prompt = "" then
    ({ a with error := some "Please enter a prompt." }, none)
  else
    ({ a with isLoading := true, error := none, generatedImage := none },
     some a.prompt)

/-- Resumption of `handleSubmit` when the service resolves (source lines
30 and 34-36): store the data URI and clear the loading flag. -/
def handleSubmitResolve (a : AppState) (newImageBase64 : String) : AppState :=
  { a with generatedImage := some ("data:image/png;base64," ++ newImageBase64),
           isLoading := false }

/-- Resumption of `handleSubmit` when the service rejects (source lines
31-36): store `err.message` for an `Error`, the generic fallback otherwise,
and clear the loading flag. -/
def handleSubmitReject (a : AppState) (err : JsError) : AppState :=
  let errorMessage :=
    match err with
    | .error msg => msg
    | .nonError => "An unknown error occurred."
  { a with error := some errorMessage, isLoading := false }

/-- The sanitization pipeline of source line 44 before the `||` fallback:
`prompt.trim().toLowerCase().replace(/[^a-z0-9_]+/g, '_').substring(0, 50)`. -/
def sanitizedCore (p : String) : String :=
  String.mk ((collapseRuns false (jsToLower (jsTrim p)).data).take 50)

/-- Source line 44 in full: the empty string is falsy, so `|| 'generated_image'`
replaces exactly the empty sanitized result. -/
def sanitizeFilename (p : String) : String :=
  if sanitizedCore p = "" then "generated_image" else sanitizedCore p

/-- `handleDownload` (source lines 39-49): a no-op without a stored image,
otherwise produces the file named `<sanitized>.png`. -/
def handleDownload (a : AppState) : Option String :=
  match a.generatedImage with
  | none => none
  | some _ => some (sanitizeFilename a.prompt ++ ".png")

/-- The derived interaction state of the spec data model: `Loading` while the
flag is set, else `Failed` when an error is stored, else `Succeeded` when a
result is stored, else `Idle`. -/
inductive InteractionState where
  | Idle | Loading | Succeeded | Failed
deriving DecidableEq, Repr

/-- Derivation of the interaction state from the component state. -/
def interactionState (a : AppState) : InteractionState :=
  if a.isLoading then .Loading
  else if a.error.isSome then .Failed
  else if a.generatedImage.isSome then .Succeeded
  else .Idle

/-! ### Event system over the controller -/

/-- User and completion events.  `setPrompt` is the textarea edit,
`submitClick` a click on the Generate button, `resolve`/`reject` the
completion of an in-flight provider call. -/
inductive Event where
  | setPrompt (p : String)
  | submitClick
  | resolve (data : String)
  | reject (e : JsError)
deriving DecidableEq, Repr

/-- Whole-system state: the component state plus the number of provider calls
issued and not yet completed (bookkeeping for the single-flight property). -/
structure Sys where
  app : AppState
  inFlight : Nat
deriving DecidableEq, Repr

/-- Initial system state. -/
def initSys : Sys := { app := initialState, inFlight := 0 }

/-- One step of the event system.  The textarea is disabled while loading
(source line 69) and a disabled button fires no click handler (source
line 75), so those events are dropped in those states; a completion event can
only occur while a call is in flight. -/
def step (s : Sys) : Event → Sys
  | .setPrompt p =>
    if s.app.isLoading then s
    else { s with app := { s.app with prompt := p } }
  | .submitClick =>
    if isGenerateDisabled s.app then s
    else
      let (a, call) := handleSubmitStart s.app
      { app := a, inFlight := s.inFlight + (if call.isSome then 1 else 0) }
  | .resolve d =>
    if s.inFlight = 0 then s
    else { app := handleSubmitResolve s.app d, inFlight := s.inFlight - 1 }
  | .reject e =>
    if s.inFlight = 0 then s
    else { app := handleSubmitReject s.app e, inFlight := s.inFlight - 1 }

/-- Run a list of events from the initial state. -/
def run (evs : List Event) : Sys := evs.foldl step initSys

/-- A system state is reachable when some event trace produces it. -/
def Reachable (s : Sys) : Prop := ∃ evs, run evs = s

/-! ### Helper lemmas on the string pipeline -/

lemma dropWhile_idem {α} (p : α → Bool) (l : List α) :
    (l.dropWhile p).dropWhile p = l.dropWhile p := by
  induction l with
  | nil => rfl
  | cons c t ih =>
    by_cases h : p c
    · simpa [List.dropWhile_cons, h] using ih
    · simp [List.dropWhile_cons, h]

lemma dropWhile_eq_self_of_prefix {α} {p : α → Bool} {a b : List α}
    (hpre : b <+: a) (ha : a.dropWhile p = a) : b.dropWhile p = b := by
  cases b with
  | nil => rfl
  | cons c t =>
    obtain ⟨r, hr⟩ := hpre
    by_cases h : p c
    · exfalso
      have hlen := congrArg List.length ha
      rw [← hr] at hlen
      have hle : ((c :: t ++ r).dropWhile p).length ≤ (t ++ r).length := by
        have : (c :: t ++ r).dropWhile p = (t ++ r).dropWhile p := by
          simp [List.dropWhile_cons, h]
        rw [this]
        exact (List.dropWhile_suffix p).length_le
      rw [hlen] at hle
      simp at hle
    · simp [List.dropWhile_cons, h]

lemma jsTrim_idem (s : String) : jsTrim (jsTrim s) = jsTrim s := by
  unfold jsTrim
  set ws := Char.isWhitespace
  set a := s.data.dropWhile ws with ha
  set x := a.reverse.dropWhile ws with hx
  have hd : (String.mk x.reverse).data = x.reverse := rfl
  rw [hd]
  have hstep1 : x.reverse.dropWhile ws = x.reverse := by
    apply dropWhile_eq_self_of_prefix (p := ws) (a := a)
    · have hsuf : x <:+ a.reverse := hx ▸ List.dropWhile_suffix ws
      have := List.reverse_prefix.mpr hsuf
      simpa using this
    · rw [ha]
      exact dropWhile_idem ws s.data
  rw [hstep1]
  simp only [List.reverse_reverse]
  have hx2 : x.dropWhile ws = x := by
    rw [hx]
    exact dropWhile_idem ws a.reverse
  rw [hx2]

lemma collapseRuns_false_ne_nil {c : Char} {t : List Char} :
    collapseRuns false (c :: t) ≠ [] := by
  by_cases h : isFilenameChar c <;> simp [collapseRuns, h]

lemma collapseRuns_false_eq_nil_iff (l : List Char) :
    collapseRuns false l = [] ↔ l = [] := by
  cases l with
  | nil => simp [collapseRuns]
  | cons c t => simp [collapseRuns_false_ne_nil]

lemma sanitizedCore_eq_empty_iff (p : String) :
    sanitizedCore p = "" ↔ jsTrim p = "" := by
  unfold sanitizedCore
  rw [show ("" : String) = String.mk [] from rfl]
  constructor
  · intro h
    have hlist : (collapseRuns false (jsToLower (jsTrim p)).data).take 50 = [] := by
      have := String.ext_iff.mp h
      simpa using this
    rw [List.take_eq_nil_iff] at hlist
    rcases hlist with h50 | hnil
    · omega
    · rw [collapseRuns_false_eq_nil_iff] at hnil
      have hdata : (jsTrim p).data.map Char.toLower = [] := hnil
      have : (jsTrim p).data = [] := List.map_eq_nil_iff.mp hdata
      exact String.ext_iff.mpr (by simpa using this)
  · intro h
    have : (jsTrim p).data = [] := by simpa using String.ext_iff.mp h
    rw [show (jsToLower (jsTrim p)).data = (jsTrim p).data.map Char.toLower from rfl,
        this]
    rfl

/-! ### Controller invariant over reachable states -/

/-- The inductive invariant of the event system: the loading flag matches the
number of in-flight calls, at most one call is in flight, and the loading
state carries neither an error nor an image. -/
def sysInv (s : Sys) : Prop :=
  (s.app.isLoading = true ↔ s.inFlight = 1) ∧ s.inFlight ≤ 1 ∧
  (s.app.isLoading = true → s.app.error = none ∧ s.app.generatedImage = none)

lemma sysInv_init : sysInv initSys := by
  refine ⟨by simp [initSys, initialState], by simp [initSys], ?_⟩
  intro h
  simp [initSys, initialState] at h

lemma not_disabled_split {a : AppState} (h : ¬ isGenerateDisabled a = true) :
    jsTrim a.prompt ≠ "" ∧ a.isLoading = false := by
  unfold isGenerateDisabled at h
  constructor
  · intro hc
    exact h (by simp [hc])
  · by_contra hc
    exact h (by simp [Bool.not_eq_false] at hc; simp [hc])

lemma sysInv_step (s : Sys) (e : Event) (h : sysInv s) : sysInv (step s e) := by
  obtain ⟨hiff, hle, hload⟩ := h
  cases e with
  | setPrompt p =>
    by_cases hl : s.app.isLoading = true
    · simp only [step, hl, if_true]
      exact ⟨hiff, hle, hload⟩
    · simp only [step, Bool.not_eq_true] at hl ⊢
      rw [hl]
      simp only [Bool.false_eq_true, if_false]
      refine ⟨by simpa [hl] using hiff, hle, ?_⟩
      intro hcon
      simp [hl] at hcon
  | submitClick =>
    by_cases hd : isGenerateDisabled s.app = true
    · simp only [step, hd, if_true]
      exact ⟨hiff, hle, hload⟩
    · obtain ⟨hne, hnl⟩ := not_disabled_split hd
      have hzero : s.inFlight = 0 := by
        have h1 : ¬ s.inFlight = 1 := fun hc => by
          have := hiff.mpr hc
          rw [hnl] at this
          exact Bool.false_ne_true this
        omega
      simp only [step, hd, if_false, handleSubmitStart, hne, if_neg hne]
      refine ⟨?_, ?_, ?_⟩
      · simp [hzero]
      · simp [hzero]
      · intro _
        simp
  | resolve d =>
    by_cases hz : s.inFlight = 0
    · simp only [step, hz, if_true]
      exact ⟨hiff, hle, hload⟩
    · have hone : s.inFlight = 1 := by omega
      simp only [step, hz, if_false, handleSubmitResolve]
      refine ⟨?_, ?_, ?_⟩
      · simp [hone]
      · simp [hone]
      · intro hcon
        simp at hcon
  | reject e =>
    by_cases hz : s.inFlight = 0
    · simp only [step, hz, if_true]
      exact ⟨hiff, hle, hload⟩
    · have hone : s.inFlight = 1 := by omega
      simp only [step, hz, if_false, handleSubmitReject]
      refine ⟨?_, ?_, ?_⟩
      · simp [hone]
      · simp [hone]
      · intro hcon
        simp at hcon

lemma sysInv_run (evs : List Event) : sysInv (run evs) := by
  suffices h : ∀ s, sysInv s → sysInv (evs.foldl step s) from h initSys sysInv_init
  induction evs with
  | nil => exact fun s hs => hs
  | cons e t ih => exact fun s hs => ih (step s e) (sysInv_step s e hs)

lemma reachable_inv {s : Sys} (h : Reachable s) : sysInv s := by
  obtain ⟨evs, rfl⟩ := h
  exact sysInv_run evs

lemma firstInlineData_append_none {pre l : List Part}
    (h : ∀ q ∈ pre, q.inlineData = none) :
    firstInlineData (pre ++ l) = firstInlineData l := by
  induction pre with
  | nil => rfl
  | cons q t ih =>
    have hq : q.inlineData = none := h q (by simp)
    simp only [List.cons_append, firstInlineData, hq]
    exact ih fun r hr => h r (by simp [hr])

/-! ### Claim theorems -/

/-- Claim C1, counterexample: the claim asserts a prompt consisting only of
symbols, such as `"###"`, falls back to the default filename; on the code,
`"###"` sanitizes to `"_"` (a truthy string), so the `|| 'generated_image'`
fallback is not taken and the download is named `"_.png"`. -/
theorem C1_counterexample :
    handleDownload { prompt := "###", generatedImage := some "data:image/png;base64,xyz",
                     isLoading := false, error := none } = some "_.png" ∧
    sanitizeFilename "###" ≠ "generated_image" := by
  exact ⟨by decide, by decide⟩

/-- Claim C1, amended: the download filename is the trimmed prompt
lowercased, with runs of characters outside `[a-z0-9_]` collapsed to single
underscores and truncated to 50 characters; the fixed default name is used
exactly when that sanitized result is empty, which happens exactly when the
trimmed prompt is empty.  Prompt `"A Red Fox!! 2024"` yields
`a_red_fox_2024`, while `"###"` yields `"_"`, not the default. -/
theorem C1_theorem :
    sanitizeFilename "A Red Fox!! 2024" = "a_red_fox_2024" ∧
    sanitizeFilename "###" = "_" ∧
    ∀ p : String, (sanitizedCore p = "" ↔ jsTrim p = "") ∧
      (jsTrim p = "" → sanitizeFilename p = "generated_image") := by
  refine ⟨by decide, by decide, fun p => ⟨sanitizedCore_eq_empty_iff p, ?_⟩⟩
  intro h
  unfold sanitizeFilename
  rw [if_pos ((sanitizedCore_eq_empty_iff p).mpr h)]

/-- Claim C1, witness: the default filename is used for an all-whitespace
prompt, whose trimmed form is empty. -/
theorem C1_witness : sanitizeFilename " " = "generated_image" :=
  ( C1_theorem.2.2 " ").2 (by decide)

/-- Claim C2, counterexample: the claim asserts the `NoImageData` message is
shown distinct from the `ProviderError` wrapping; in the code the
no-image-data throw sits inside the `try` block, is re-caught, and receives
the very same `Failed to generate image: ` wrapping as provider failures. -/
theorem C2_counterexample :
    generateMonochromeImage "cat"
        (fun _ => .ok ⟨some [⟨some ⟨some [{ text := some "x" }]⟩⟩]⟩)
      = .error (.error ("Failed to generate image: " ++ noImageMsg)) ∧
    "Failed to generate image: " ++ noImageMsg ≠ noImageMsg := by
  exact ⟨rfl, by decide⟩

/-- Claim C2, amended: when the provider responds successfully but no content
part carries inline image data, `generateMonochromeImage` fails with the
fixed no-image-data message wrapped by the same prefix applied to provider
failures, and the controller transitions to `Failed` storing that wrapped
message. -/
theorem C2_theorem (prompt : String)
    (provider : GenRequest → Except JsError GenResponse) (response : GenResponse)
    (hok : provider (mkRequest prompt) = .ok response)
    (hnone : firstInlineData (responseParts response) = none) :
    generateMonochromeImage prompt provider
      = .error (.error ("Failed to generate image: " ++ noImageMsg)) ∧
    ∀ a : AppState,
      (handleSubmitReject a
          (.error ("Failed to generate image: " ++ noImageMsg))).error
        = some ("Failed to generate image: " ++ noImageMsg) ∧
      interactionState (handleSubmitReject a
          (.error ("Failed to generate image: " ++ noImageMsg))) = .Failed := by
  constructor
  · simp only [generateMonochromeImage, tryBody, hok, hnone, catchWrap]
  · intro a
    exact ⟨rfl, by simp [interactionState, handleSubmitReject]⟩

/-- Claim C2, witness: a concrete text-only response produces the wrapped
no-image-data failure. -/
theorem C2_witness :
    generateMonochromeImage "dog"
        (fun _ => .ok ⟨some [⟨some ⟨some [{ text := some "x" }]⟩⟩]⟩)
      = .error (.error ("Failed to generate image: " ++ noImageMsg)) :=
  ( C2_theorem "dog" _ ⟨some [⟨some ⟨some [{ text := some "x" }]⟩⟩]⟩ rfl rfl).1

/-- Claim C3: when the response part list splits as earlier parts without
inline data, then a part carrying inline data, then anything, the service
returns the data of that first inline-data part, ignoring text parts and
later parts. -/
theorem C3_theorem (prompt : String)
    (provider : GenRequest → Except JsError GenResponse) (response : GenResponse)
    (pre post : List Part) (pt : Part) (d : InlineData)
    (hok : provider (mkRequest prompt) = .ok response)
    (hsplit : responseParts response = pre ++ pt :: post)
    (hd : pt.inlineData = some d)
    (hpre : ∀ q ∈ pre, q.inlineData = none) :
    generateMonochromeImage prompt provider = .ok d.data := by
  have hfirst : firstInlineData (responseParts response) = some d.data := by
    rw [hsplit, firstInlineData_append_none hpre]
    simp [firstInlineData, hd]
  simp only [generateMonochromeImage, tryBody, hok, hfirst]

/-- Claim C3, witness: for parts `[{text:"x"}, {inlineData:{data:"abc"}}]`
the service returns `"abc"`. -/
theorem C3_witness :
    generateMonochromeImage "cat"
        (fun _ => .ok ⟨some [⟨some ⟨some [{ text := some "x" },
            { inlineData := some ⟨"abc"⟩ }]⟩⟩]⟩)
      = .ok "abc" :=
  C3_theorem "cat" _ _ [{ text := some "x" }] []
    { inlineData := some ⟨"abc"⟩ } ⟨"abc"⟩ rfl rfl rfl (by decide)

lemma step_submit_of_loading {t : Sys} (hl : t.app.isLoading = true) :
    step t .submitClick = t := by
  have hd : isGenerateDisabled t.app = true := by
    simp [isGenerateDisabled, hl]
  simp [step, hd]

/-- Claim C4: in every reachable state at most one provider call is in
flight; while loading, a submit click is a no-op (the button is disabled);
and from a non-loading state with a valid prompt, two rapid submit clicks
issue exactly one provider call. -/
theorem C4_theorem (s : Sys) (h : Reachable s) :
    s.inFlight ≤ 1 ∧
    (s.app.isLoading = true → step s .submitClick = s) ∧
    (s.app.isLoading = false → jsTrim s.app.prompt ≠ "" →
      (step s .submitClick).inFlight = s.inFlight + 1 ∧
      step (step s .submitClick) .submitClick = step s .submitClick) := by
  obtain ⟨hiff, hle, _⟩ := reachable_inv h
  refine ⟨hle, fun hl => step_submit_of_loading hl, ?_⟩
  intro hnl hne
  have hd : isGenerateDisabled s.app = false := by
    simp [isGenerateDisabled, hnl, hne]
  refine ⟨?_, ?_⟩
  · simp [step, hd, handleSubmitStart, hne]
  · apply step_submit_of_loading
    simp [step, hd, handleSubmitStart, hne]

/-- Claim C4, witness: after setting a prompt and clicking submit, the
reachable loading state has one call in flight and absorbs a second click. -/
theorem C4_witness :
    (run [Event.setPrompt "cat", Event.submitClick]).inFlight ≤ 1 ∧
    step (run [Event.setPrompt "cat", Event.submitClick]) Event.submitClick
      = run [Event.setPrompt "cat", Event.submitClick] := by
  have h := C4_theorem (run [Event.setPrompt "cat", Event.submitClick])
    ⟨[Event.setPrompt "cat", Event.submitClick], rfl⟩
  exact ⟨h.1, h.2.1 (by decide)⟩

/-- Claim C5: a submit with a non-empty trimmed prompt clears the error and
the previous result, enters loading, and invokes the service; consequently
every reachable loading state stores no error and no stale image. -/
theorem C5_theorem (s : Sys) (h : Reachable s) :
    (jsTrim s.app.prompt ≠ "" →
      (handleSubmitStart s.app).1.error = none ∧
      (handleSubmitStart s.app).1.generatedImage = none ∧
      (handleSubmitStart s.app).1.isLoading = true ∧
      (handleSubmitStart s.app).2 = some s.app.prompt) ∧
    (s.app.isLoading = true → s.app.error = none ∧ s.app.generatedImage = none) := by
  obtain ⟨_, _, hload⟩ := reachable_inv h
  refine ⟨?_, hload⟩
  intro hne
  simp [handleSubmitStart, hne]

/-- Claim C5, witness: the concrete reachable loading state after one valid
submit stores no error and no image. -/
theorem C5_witness :
    (run [Event.setPrompt "cat", Event.submitClick]).app.error = none ∧
    (run [Event.setPrompt "cat", Event.submitClick]).app.generatedImage = none :=
  ( C5_theorem (run [Event.setPrompt "cat", Event.submitClick])
    ⟨[Event.setPrompt "cat", Event.submitClick], rfl⟩).2 (by decide)

/-- Claim C6: a submit whose prompt trims to empty issues no service call,
sets the validation error message, and leaves every other field of the
state (loading flag, stored result, prompt) unchanged. -/
theorem C6_theorem (a : AppState) (h : jsTrim a.prompt = "") :
    (handleSubmitStart a).2 = none ∧
    (handleSubmitStart a).1.error = some "Please enter a prompt." ∧
    (handleSubmitStart a).1.isLoading = a.isLoading ∧
    (handleSubmitStart a).1.generatedImage = a.generatedImage ∧
    (handleSubmitStart a).1.prompt = a.prompt := by
  simp [handleSubmitStart, h]

/-- Claim C6, witness: a whitespace-only prompt in a succeeded state sets
the validation error without a call. -/
theorem C6_witness :
    (handleSubmitStart (AppState.mk "   " (some "img") false none)).2 = none ∧
    (handleSubmitStart (AppState.mk "   " (some "img") false none)).1.error
      = some "Please enter a prompt." :=
  ⟨( C6_theorem _ (by decide)).1, ( C6_theorem _ (by decide)).2.1⟩

/-- Claim C7: for every non-empty prompt the dispatched request text is the
prompt with the fixed style suffix appended exactly once, and the service's
outcome depends on the provider only through its answer at that one
request. -/
theorem C7_theorem (p : String) (h : p ≠ "") :
    (mkRequest p).textParts = [p ++ styleSuffix] ∧
    (mkRequest p).textParts.length = 1 ∧
    ∀ prov1 prov2 : GenRequest → Except JsError GenResponse,
      prov1 (mkRequest p) = prov2 (mkRequest p) →
      generateMonochromeImage p prov1 = generateMonochromeImage p prov2 := by
  refine ⟨rfl, rfl, ?_⟩
  intro prov1 prov2 heq
  simp only [generateMonochromeImage, tryBody, heq]

/-- Claim C7, witness: the request for prompt `"cat"` carries exactly the
suffixed text. -/
theorem C7_witness : (mkRequest "cat").textParts = ["cat" ++ styleSuffix] :=
  ( C7_theorem "cat" (by decide)).1

/-- Claim C8: a provider failure carrying message `msg` surfaces as an error
whose message is the wrapping prefix followed by `msg` (so the original text
is preserved), the controller stores exactly that message, and a non-`Error`
provider failure surfaces as the generic unknown-error message, with the
controller's own fallback covering non-`Error` rejections. -/
theorem C8_theorem (p : String)
    (provider : GenRequest → Except JsError GenResponse) (msg : String)
    (a : AppState)
    (hfail : provider (mkRequest p) = .error (.error msg)) :
    generateMonochromeImage p provider
      = .error (.error ("Failed to generate image: " ++ msg)) ∧
    (∃ pre, "Failed to generate image: " ++ msg = pre ++ msg) ∧
    (handleSubmitReject a (.error ("Failed to generate image: " ++ msg))).error
      = some ("Failed to generate image: " ++ msg) ∧
    (∀ prov2 : GenRequest → Except JsError GenResponse,
      prov2 (mkRequest p) = .error .nonError →
      generateMonochromeImage p prov2
        = .error (.error "An unknown error occurred while generating the image.")) ∧
    (handleSubmitReject a .nonError).error = some "An unknown error occurred." := by
  refine ⟨?_, ⟨"Failed to generate image: ", rfl⟩, rfl, ?_, rfl⟩
  · simp only [generateMonochromeImage, tryBody, hfail, catchWrap]
  · intro prov2 h2
    simp only [generateMonochromeImage, tryBody, h2, catchWrap]

/-- Claim C8, witness: the provider message `"boom"` is preserved inside the
wrapped failure. -/
theorem C8_witness :
    generateMonochromeImage "cat" (fun _ => .error (.error "boom"))
      = .error (.error ("Failed to generate image: " ++ "boom")) :=
  ( C8_theorem "cat" _ "boom" initialState rfl).1

lemma wrap_ne_config (msg : String) :
    "Failed to generate image: " ++ msg ≠ configErrorMsg := by
  intro h
  have h3 : ("Failed to generate image: ").data ++ msg.data = configErrorMsg.data := by
    rw [← h]
    rfl
  rw [show ("Failed to generate image: ").data
      = 'F' :: ("ailed to generate image: ").data from rfl] at h3
  rw [show configErrorMsg.data
      = 'A' :: ("PI_KEY environment variable is not set.").data from rfl] at h3
  rw [List.cons_append] at h3
  injection h3 with hc _
  exact absurd hc (by decide)

lemma generateMonochromeImage_error_shape (p : String)
    (provider : GenRequest → Except JsError GenResponse) (m : String)
    (hm : generateMonochromeImage p provider = .error (.error m)) :
    (∃ msg, m = "Failed to generate image: " ++ msg) ∨
    m = "An unknown error occurred while generating the image." := by
  unfold generateMonochromeImage at hm
  cases htb : tryBody p provider with
  | ok d =>
    rw [htb] at hm
    exact Except.noConfusion hm
  | error e =>
    rw [htb] at hm
    cases e with
    | error msg =>
      left
      refine ⟨msg, ?_⟩
      have h2 : (Except.error (JsError.error ("Failed to generate image: " ++ msg))
          : Except JsError String) = .error (.error m) := hm
      simp only [Except.error.injEq, JsError.error.injEq] at h2
      exact h2.symm
    | nonError =>
      right
      have h2 : (Except.error (JsError.error
            "An unknown error occurred while generating the image.")
          : Except JsError String) = .error (.error m) := hm
      simp only [Except.error.injEq, JsError.error.injEq] at h2
      exact h2.symm

/-- Claim C9: a missing API key fails the startup check with the
configuration error; a present (non-empty) key passes it; and no per-request
failure of the service ever carries the configuration error message. -/
theorem C9_theorem :
    startupCheck none = .error (.error configErrorMsg) ∧
    (∀ k : String, k ≠ "" → startupCheck (some k) = .ok ()) ∧
    ∀ (p : String) (provider : GenRequest → Except JsError GenResponse)
      (m : String),
      generateMonochromeImage p provider = .error (.error m) →
      m ≠ configErrorMsg := by
  refine ⟨rfl, ?_, ?_⟩
  · intro k hk
    simp [startupCheck, apiKeyPresent, hk]
  · intro p provider m hm
    rcases generateMonochromeImage_error_shape p provider m hm with ⟨msg, rfl⟩ | rfl
    · exact wrap_ne_config msg
    · decide

/-- Claim C9, witness: the startup check rejects the absent key, accepts a
concrete key, and a concrete provider failure does not surface as the
configuration error. -/
theorem C9_witness :
    startupCheck (some "key") = .ok () ∧
    ("Failed to generate image: " ++ "boom") ≠ configErrorMsg :=
  ⟨ C9_theorem.2.1 "key" (by decide),
   C9_theorem.2.2 "cat" (fun _ => .error (.error "boom")) _ rfl⟩

/-- Claim C10: a submit whose prompt trims non-empty passes the original
untrimmed prompt to the service, so the dispatched text is the untrimmed
prompt followed by the style suffix, while the download filename depends
only on the trimmed prompt. -/
theorem C10_theorem (a : AppState) (h : jsTrim a.prompt ≠ "") :
    (handleSubmitStart a).2 = some a.prompt ∧
    (mkRequest a.prompt).textParts = [a.prompt ++ styleSuffix] ∧
    sanitizeFilename a.prompt = sanitizeFilename (jsTrim a.prompt) := by
  have hcore : sanitizedCore (jsTrim a.prompt) = sanitizedCore a.prompt := by
    unfold sanitizedCore
    rw [jsTrim_idem]
  refine ⟨?_, rfl, ?_⟩
  · simp [handleSubmitStart, h]
  · unfold sanitizeFilename
    rw [hcore]

/-- Claim C10, witness: the prompt `"  cat "` is passed to the service with
its surrounding whitespace intact. -/
theorem C10_witness :
    (handleSubmitStart (AppState.mk "  cat " none false none)).2 = some "  cat " :=
  ( C10_theorem _ (by decide)).1

end Mono
